import Mathlib

/-!
Shallow embedding of the BeldyCo basket price estimator.

The repository contains four near-identical Streamlit applications
(`Capstone.py`, `BeldyConnect.py`, `Beldy-Connect.py`, `Beldy_Connect.py`).
The algorithmic core verified here is the basket price estimation engine:

* `predict_basket_price` (Capstone.py lines 112-141): builds a feature row,
  asks the trained model for a predicted price, falls back to a deterministic
  multiplier formula when the model is missing or its prediction raises, and
  clamps the result to `[0.8 * rawSum, 1.5 * rawSum]` where `rawSum` is the
  sum of the catalog prices of the selected items.
* `create_sample_model` (Capstone.py lines 50-110): seeds numpy with 42,
  synthesises 1000 training samples column by column, computes a price per
  sample, and fits a linear regression on an 80/20 split.

Prices and nutrition quantities are embedded as rationals (`ℚ`); the decimal
literals of the source (`0.8`, `1.5`, `0.1`, `0.05`) are exact rationals
here.  The trained model is opaque to the estimator, so it is embedded as an
abstract function from the feature row to an optional price (`none` models a
prediction that raises).
-/

namespace BeldyCo

/-- The `nutrition_data` dict passed to `predict_basket_price`: keys
`fats`, `carbs`, `proteins`, `fiber`. -/
structure NutritionData where
  fats : ℚ
  carbs : ℚ
  proteins : ℚ
  fiber : ℚ
deriving DecidableEq

/-- The single-row DataFrame built at Capstone.py lines 114-123: one-hot
diet type plus the seven numeric columns. -/
structure Features where
  dietType : String
  fats : ℚ
  carbs : ℚ
  proteins : ℚ
  fiber : ℚ
  itemCount : ℕ
  hasProtein : ℕ
  budget : ℚ
deriving DecidableEq

/-- The catalog `st.session_state.all_items`: an item-name-to-price mapping.
Embedded as an association list; `List.lookup` mirrors dict key lookup. -/
abbrev Catalog := List (String × ℚ)

/-- Python `all_items.get(item, 0)`: the price of an item, defaulting to 0
when the item is absent from the catalog. -/
def priceOf (catalog : Catalog) (item : String) : ℚ :=
  (catalog.lookup item).getD 0

/-- Python `sum(st.session_state.all_items.get(item, 0) for item in
selected_items)` (Capstone.py lines 132, 139, 140). -/
def rawSum (catalog : Catalog) (items : List String) : ℚ :=
  (items.map (priceOf catalog)).sum

/-- Python substring test `pat in s` on strings: `pat.data` is a contiguous
sublist of `s.data`. -/
def strContains (pat s : String) : Bool :=
  decide (pat.data <:+: s.data)

/-- The `Has_Protein` feature (Capstone.py line 121):
`int(any('Chicken' in item or 'Eggs' in item or 'Milk' in item for item in
selected_items))`. -/
def hasProteinFlag (items : List String) : ℕ :=
  if items.any (fun item =>
      strContains "Chicken" item || strContains "Eggs" item || strContains "Milk" item)
  then 1 else 0

/-- Construction of `input_data` (Capstone.py lines 114-123). -/
def buildFeatures (diet_type : String) (nutrition_data : NutritionData)
    (selected_items : List String) (budget : ℚ) : Features :=
  { dietType := diet_type
    fats := nutrition_data.fats
    carbs := nutrition_data.carbs
    proteins := nutrition_data.proteins
    fiber := nutrition_data.fiber
    itemCount := selected_items.length
    hasProtein := hasProteinFlag selected_items
    budget := budget }

/-- The fallback multiplier (Capstone.py lines 133-136): starts at 1.0 and
accumulates +0.1 when proteins exceed 150, +0.05 when fats exceed 80, and
+0.05 when carbs are below 1000. -/
def fallbackMultiplier (nutrition_data : NutritionData) : ℚ :=
  let multiplier : ℚ := 1.0
  let multiplier := if nutrition_data.proteins > 150 then multiplier + 0.1 else multiplier
  let multiplier := if nutrition_data.fats > 80 then multiplier + 0.05 else multiplier
  let multiplier := if nutrition_data.carbs < 1000 then multiplier + 0.05 else multiplier
  multiplier

/-- The fallback calculation (Capstone.py lines 131-137):
`base_price * multiplier` where `base_price` is the catalog sum of the
selected items. -/
def fallbackPrice (catalog : Catalog) (nutrition_data : NutritionData)
    (selected_items : List String) : ℚ :=
  rawSum catalog selected_items * fallbackMultiplier nutrition_data

/-- An opaque trained model: maps the feature row to a predicted price,
`none` when `model.predict` raises. -/
abbrev PriceModel := Features → Option ℚ

/-- The try/except block of Capstone.py lines 125-137: use the model when it
is loaded and its prediction succeeds, otherwise (model absent — the
`raise ValueError` branch — or prediction raising) use the fallback. -/
def predictedPrice (model : Option PriceModel) (catalog : Catalog)
    (diet_type : String) (nutrition_data : NutritionData)
    (selected_items : List String) (budget : ℚ) : ℚ :=
  let input_data := buildFeatures diet_type nutrition_data selected_items budget
  match model with
  | some m =>
    match m input_data with
    | some p => p
    | none => fallbackPrice catalog nutrition_data selected_items
  | none => fallbackPrice catalog nutrition_data selected_items

/-- Capstone.py lines 112-141, `predict_basket_price`: model-or-fallback
prediction clamped to `[rawSum * 0.8, rawSum * 1.5]` via
`max(min(predicted_price, max_price), min_price)`. -/
def predict_basket_price (model : Option PriceModel) (catalog : Catalog)
    (diet_type : String) (nutrition_data : NutritionData)
    (selected_items : List String) (budget : ℚ) : ℚ :=
  let predicted_price := predictedPrice model catalog diet_type nutrition_data selected_items budget
  let min_price := rawSum catalog selected_items * 0.8
  let max_price := rawSum catalog selected_items * 1.5
  max (min predicted_price max_price) min_price

/-- A trained model whose prediction may raise: `Except.error` models an
exception escaping `model.predict`. -/
abbrev PriceModelE := Features → Except String ℚ

/-- Forgetting which exception a prediction raised: an exception-raising
model seen as an `Option`-valued one. -/
def modelToOption (model : Option PriceModelE) : Option PriceModel :=
  model.map (fun f input => (f input).toOption)

/-- Exception-level embedding of Capstone.py lines 112-141.  The body of
the `try` block either produces the model prediction or raises (the
`raise ValueError("Model not loaded")` when no model is in the session
state, or whatever `model.predict` raises); the bare `except:` catches
every exception and computes the fallback; the clamped result is then
returned normally (`Except.ok`). -/
def predict_basket_price_run (model : Option PriceModelE) (catalog : Catalog)
    (diet_type : String) (nutrition_data : NutritionData)
    (selected_items : List String) (budget : ℚ) : Except String ℚ :=
  let input_data := buildFeatures diet_type nutrition_data selected_items budget
  let tryBlock : Except String ℚ :=
    match model with
    | some m => m input_data
    | none => Except.error "Model not loaded"
  let predicted_price : ℚ :=
    match tryBlock with
    | Except.ok p => p
    | Except.error _ => fallbackPrice catalog nutrition_data selected_items
  let min_price := rawSum catalog selected_items * 0.8
  let max_price := rawSum catalog selected_items * 1.5
  Except.ok (max (min predicted_price max_price) min_price)

/-- BeldyConnect.py lines 89-118, `predict_basket_price`: transcribed from
that file; its text coincides with Capstone.py lines 112-141. -/
def predictBeldyConnect (model : Option PriceModel) (catalog : Catalog)
    (diet_type : String) (nutrition_data : NutritionData)
    (selected_items : List String) (budget : ℚ) : ℚ :=
  let predicted_price := predictedPrice model catalog diet_type nutrition_data selected_items budget
  let min_price := rawSum catalog selected_items * 0.8
  let max_price := rawSum catalog selected_items * 1.5
  max (min predicted_price max_price) min_price

/-- Beldy-Connect.py lines 97-126, `predict_basket_price`: transcribed from
that file; its text coincides with Capstone.py lines 112-141. -/
def predictBeldyConnectDash (model : Option PriceModel) (catalog : Catalog)
    (diet_type : String) (nutrition_data : NutritionData)
    (selected_items : List String) (budget : ℚ) : ℚ :=
  let predicted_price := predictedPrice model catalog diet_type nutrition_data selected_items budget
  let min_price := rawSum catalog selected_items * 0.8
  let max_price := rawSum catalog selected_items * 1.5
  max (min predicted_price max_price) min_price

/-- Beldy_Connect.py lines 110-139, `predict_basket_price`: transcribed from
that file; its text coincides with Capstone.py lines 112-141. -/
def predictBeldyConnectUnderscore (model : Option PriceModel) (catalog : Catalog)
    (diet_type : String) (nutrition_data : NutritionData)
    (selected_items : List String) (budget : ℚ) : ℚ :=
  let predicted_price := predictedPrice model catalog diet_type nutrition_data selected_items budget
  let min_price := rawSum catalog selected_items * 0.8
  let max_price := rawSum catalog selected_items * 1.5
  max (min predicted_price max_price) min_price

/-- State of the ambient numpy pseudo-random generator.  Abstract: all we
use is that `np.random.seed(k)` puts the generator into a state determined
by `k` alone, discarding whatever state it had before. -/
structure RngState where
  seed : ℕ
  draws : ℕ
deriving DecidableEq

/-- Python `np.random.seed(k)`: the generator state right after seeding. -/
def npSeed (k : ℕ) : RngState := ⟨k, 0⟩

/-- The numpy sampling primitives used by `create_sample_model`, abstract
deterministic functions of the generator state.  `choiceDiet` stands for
`np.random.choice` over the four diet names with probabilities
[0.4, 0.3, 0.2, 0.1]; the others take their distribution parameters. -/
structure RngOps where
  choiceDiet : RngState → String × RngState
  normal : ℚ → ℚ → RngState → ℚ × RngState
  poisson : ℚ → RngState → ℚ × RngState
  binomial : ℚ → RngState → ℕ × RngState
  uniform : ℚ → ℚ → RngState → ℚ × RngState

/-- Drawing a column of `n` samples from one primitive, threading the
generator state. -/
def genColumn {α : Type} (draw : RngState → α × RngState) :
    ℕ → RngState → List α × RngState
  | 0, s => ([], s)
  | n + 1, s =>
    let (x, s1) := draw s
    let (xs, s2) := genColumn draw n s1
    (x :: xs, s2)

/-- Numpy `.clip(lo, hi)` on one value. -/
def clip (lo hi x : ℚ) : ℚ := max lo (min x hi)

/-- The per-sample price computation of Capstone.py lines 68-86: a
diet-dependent normal base, linear nutrient terms, a conditional protein
bonus, and a budget term. -/
def priceRow (ops : RngOps) (diet : String) (fats carbs proteins itemCount : ℚ)
    (hasProtein : ℕ) (budget : ℚ) (s : RngState) : ℚ × RngState :=
  let (base0, s1) :=
    if diet = "Keto" then ops.normal 200 30 s
    else if diet = "Vegan" then ops.normal 180 25 s
    else ops.normal 160 20 s
  let base1 := base0 + proteins * 0.1 + fats * 0.05 - carbs * 0.02 + itemCount * 10
  let (base2, s2) :=
    if hasProtein ≠ 0 then
      let (bonus, s3) := ops.normal 30 5 s1
      (base1 + bonus, s3)
    else (base1, s1)
  (base2 + budget * 0.2, s2)

/-- The price loop of Capstone.py lines 68-86 over all samples, threading
the generator state through the conditional draws. -/
def priceColumn (ops : RngOps) :
    List String → List ℚ → List ℚ → List ℚ → List ℚ → List ℕ → List ℚ →
    RngState → List ℚ × RngState
  | d :: ds, f :: fs, c :: cs, p :: ps, ic :: ics, hp :: hps, b :: bs, s =>
    let (price, s1) := priceRow ops d f c p ic hp b s
    let (rest, s2) := priceColumn ops ds fs cs ps ics hps bs s1
    (price :: rest, s2)
  | _, _, _, _, _, _, _, s => ([], s)

/-- The synthetic training table of Capstone.py lines 55-88, columns in the
order the source builds them. -/
structure TrainingData where
  dietType : List String
  weeklyFats : List ℚ
  weeklyCarbs : List ℚ
  weeklyProteins : List ℚ
  weeklyFiber : List ℚ
  itemCount : List ℚ
  hasProtein : List ℕ
  budget : List ℚ
  price : List ℚ

/-- Capstone.py lines 50-110, `create_sample_model`: seed numpy with 42,
draw the eight feature columns (clipping where the source clips), compute
the price column, then split and fit.  `splitFit` abstracts
`train_test_split(X, y, test_size=0.2, random_state=42)` followed by
`Pipeline(...).fit`, a deterministic function of the table and the two
split parameters.  The incoming generator state `s0` is the ambient numpy
state of the process before the call; the source overwrites it at line 52
with `np.random.seed(42)`. -/
def create_sample_model (ops : RngOps) (splitFit : ℚ → ℕ → TrainingData → PriceModel)
    (_s0 : RngState) : TrainingData × PriceModel :=
  let s := npSeed 42
  let n := 1000
  let (dietType, s) := genColumn ops.choiceDiet n s
  let (fatsRaw, s) := genColumn (ops.normal 70 15) n s
  let weeklyFats := fatsRaw.map (clip 40 100)
  let (carbsRaw, s) := genColumn (ops.normal 1500 300) n s
  let weeklyCarbs := carbsRaw.map (clip 800 2200)
  let (proteinsRaw, s) := genColumn (ops.normal 450 100) n s
  let weeklyProteins := proteinsRaw.map (clip 200 700)
  let (fiberRaw, s) := genColumn (ops.normal 150 30) n s
  let weeklyFiber := fiberRaw.map (clip 80 220)
  let (itemCountRaw, s) := genColumn (ops.poisson 5) n s
  let itemCount := itemCountRaw.map (clip 3 8)
  let (hasProtein, s) := genColumn (ops.binomial 0.7) n s
  let (budget, s) := genColumn (ops.uniform 150 350) n s
  let (price, _s) := priceColumn ops dietType weeklyFats weeklyCarbs
    weeklyProteins itemCount hasProtein budget s
  let data : TrainingData :=
    { dietType := dietType, weeklyFats := weeklyFats, weeklyCarbs := weeklyCarbs
      weeklyProteins := weeklyProteins, weeklyFiber := weeklyFiber
      itemCount := itemCount, hasProtein := hasProtein, budget := budget
      price := price }
  (data, splitFit 0.2 42 data)

end BeldyCo

namespace BeldyCo

/-- The sequential accumulation of the fallback multiplier (Capstone.py
lines 133-136) equals the additive stacking of the three threshold
bonuses. -/
lemma fallbackMultiplier_eq_add (nd : NutritionData) :
    fallbackMultiplier nd =
      1 + (if nd.proteins > 150 then (0.1 : ℚ) else 0)
        + (if nd.fats > 80 then (0.05 : ℚ) else 0)
        + (if nd.carbs < 1000 then (0.05 : ℚ) else 0) := by
  unfold fallbackMultiplier
  by_cases h1 : nd.proteins > 150 <;> by_cases h2 : nd.fats > 80 <;>
    by_cases h3 : nd.carbs < 1000 <;> simp [h1, h2, h3] <;> norm_num

/-- The fallback multiplier is at least 1. -/
lemma one_le_fallbackMultiplier (nd : NutritionData) : 1 ≤ fallbackMultiplier nd := by
  unfold fallbackMultiplier
  by_cases h1 : nd.proteins > 150 <;> by_cases h2 : nd.fats > 80 <;>
    by_cases h3 : nd.carbs < 1000 <;> simp [h1, h2, h3] <;> norm_num

/-- The fallback multiplier is at most 1.2 = 1.0 + 0.1 + 0.05 + 0.05. -/
lemma fallbackMultiplier_le (nd : NutritionData) : fallbackMultiplier nd ≤ 1.2 := by
  unfold fallbackMultiplier
  by_cases h1 : nd.proteins > 150 <;> by_cases h2 : nd.fats > 80 <;>
    by_cases h3 : nd.carbs < 1000 <;> simp [h1, h2, h3] <;> norm_num

/-- When every catalog price is non-negative, every permissive lookup is
non-negative. -/
lemma priceOf_nonneg : ∀ (catalog : Catalog),
    (∀ pr ∈ catalog, 0 ≤ pr.2) → ∀ item, 0 ≤ priceOf catalog item
  | [], _, item => by simp [priceOf, List.lookup]
  | (k, v) :: rest, h, item => by
    simp only [priceOf, List.lookup]
    cases hik : item == k with
    | true => simpa using h (k, v) (by simp)
    | false =>
      simpa [priceOf] using
        priceOf_nonneg rest (fun pr hpr => h pr (List.mem_cons_of_mem _ hpr)) item

/-- When every catalog price is non-negative, the raw basket sum is
non-negative. -/
lemma rawSum_nonneg (catalog : Catalog) (h : ∀ pr ∈ catalog, 0 ≤ pr.2)
    (items : List String) : 0 ≤ rawSum catalog items := by
  refine List.sum_nonneg ?_
  intro x hx
  obtain ⟨item, _hitem, rfl⟩ := List.mem_map.mp hx
  exact priceOf_nonneg catalog h item

/-- With the model absent, or present but raising on this feature row, the
try/except block yields the fallback value. -/
lemma predictedPrice_of_unavailable (model : Option PriceModel) (catalog : Catalog)
    (d : String) (nd : NutritionData) (items : List String) (b : ℚ)
    (h : model = none ∨ ∃ f, model = some f ∧ f (buildFeatures d nd items b) = none) :
    predictedPrice model catalog d nd items b = fallbackPrice catalog nd items := by
  rcases h with rfl | ⟨f, rfl, hf⟩
  · rfl
  · simp [predictedPrice, hf]

/-- The exception-level estimator always returns normally, with the value
of the pure estimator. -/
lemma predict_run_eq (model : Option PriceModelE) (catalog : Catalog)
    (d : String) (nd : NutritionData) (items : List String) (b : ℚ) :
    predict_basket_price_run model catalog d nd items b =
      Except.ok (predict_basket_price (modelToOption model) catalog d nd items b) := by
  cases model with
  | none => rfl
  | some f =>
    simp only [predict_basket_price_run, predict_basket_price, predictedPrice, modelToOption,
      Option.map]
    cases hf : f (buildFeatures d nd items b) with
    | ok p => simp [hf, Except.toOption]
    | error e => simp [hf, Except.toOption]

/-- C1: for every profile, every non-empty selection of items all present in
the catalog with non-negative prices, and every positive budget, the
estimate lies between 0.8 and 1.5 times the raw catalog sum. -/
theorem estimate_bounds (model : Option PriceModel) (catalog : Catalog)
    (d : String) (nd : NutritionData) (items : List String) (b : ℚ)
    (_hne : items ≠ []) (_hmem : ∀ item ∈ items, (catalog.lookup item).isSome = true)
    (hnn : ∀ pr ∈ catalog, 0 ≤ pr.2) (_hb : 0 < b) :
    0.8 * rawSum catalog items ≤ predict_basket_price model catalog d nd items b ∧
      predict_basket_price model catalog d nd items b ≤ 1.5 * rawSum catalog items := by
  have hr : 0 ≤ rawSum catalog items := rawSum_nonneg catalog hnn items
  simp only [predict_basket_price]
  constructor
  · rw [mul_comm]
    exact le_max_right _ _
  · apply max_le
    · exact (min_le_right _ _).trans (le_of_eq (mul_comm _ _))
    · calc rawSum catalog items * 0.8
          ≤ rawSum catalog items * 1.5 := by
            apply mul_le_mul_of_nonneg_left (by norm_num) hr
        _ = 1.5 * rawSum catalog items := mul_comm _ _

/-- Witness for C1 at a one-item catalog. -/
theorem estimate_bounds_witness :
    (["Rice (1kg)"] ≠ ([] : List String)) ∧
    (∀ item ∈ ["Rice (1kg)"], (([("Rice (1kg)", (10 : ℚ))]).lookup item).isSome = true) ∧
    (∀ pr ∈ [("Rice (1kg)", (10 : ℚ))], 0 ≤ pr.2) ∧ ((0 : ℚ) < 1) ∧
    (0.8 * rawSum [("Rice (1kg)", 10)] ["Rice (1kg)"] ≤
        predict_basket_price none [("Rice (1kg)", 10)] "Balanced" ⟨0, 0, 0, 0⟩ ["Rice (1kg)"] 1 ∧
      predict_basket_price none [("Rice (1kg)", 10)] "Balanced" ⟨0, 0, 0, 0⟩ ["Rice (1kg)"] 1 ≤
        1.5 * rawSum [("Rice (1kg)", 10)] ["Rice (1kg)"]) :=
  ⟨by decide, by decide, by decide, by norm_num,
    estimate_bounds none [("Rice (1kg)", 10)] "Balanced" ⟨0, 0, 0, 0⟩ ["Rice (1kg)"] 1
      (by decide) (by decide) (by decide) (by norm_num)⟩

/-- C2: whenever the model is unavailable (absent, or its prediction raises
on this feature row), the estimate is exactly the clamp of the raw sum
times the additively stacked multiplier. -/
theorem fallback_determinism (model : Option PriceModel) (catalog : Catalog)
    (d : String) (nd : NutritionData) (items : List String) (b : ℚ)
    (h : model = none ∨ ∃ f, model = some f ∧ f (buildFeatures d nd items b) = none) :
    predict_basket_price model catalog d nd items b =
      max (min (rawSum catalog items *
            (1 + (if nd.proteins > 150 then (0.1 : ℚ) else 0)
               + (if nd.fats > 80 then (0.05 : ℚ) else 0)
               + (if nd.carbs < 1000 then (0.05 : ℚ) else 0)))
          (rawSum catalog items * 1.5))
        (rawSum catalog items * 0.8) := by
  simp only [predict_basket_price, predictedPrice_of_unavailable model catalog d nd items b h,
    fallbackPrice, fallbackMultiplier_eq_add]

/-- Witness for C2 with the model absent and all three thresholds met. -/
theorem fallback_determinism_witness :
    ((none : Option PriceModel) = none ∨
      ∃ f, (none : Option PriceModel) = some f ∧
        f (buildFeatures "Balanced" ⟨90, 500, 200, 0⟩ ["Rice (1kg)"] 100) = none) ∧
    predict_basket_price none [("Rice (1kg)", 10)] "Balanced" ⟨90, 500, 200, 0⟩ ["Rice (1kg)"] 100 =
      max (min (rawSum [("Rice (1kg)", 10)] ["Rice (1kg)"] *
            (1 + (if ((⟨90, 500, 200, 0⟩ : NutritionData).proteins > 150) then (0.1 : ℚ) else 0)
               + (if ((⟨90, 500, 200, 0⟩ : NutritionData).fats > 80) then (0.05 : ℚ) else 0)
               + (if ((⟨90, 500, 200, 0⟩ : NutritionData).carbs < 1000) then (0.05 : ℚ) else 0)))
          (rawSum [("Rice (1kg)", 10)] ["Rice (1kg)"] * 1.5))
        (rawSum [("Rice (1kg)", 10)] ["Rice (1kg)"] * 0.8) :=
  ⟨Or.inl rfl,
    fallback_determinism none [("Rice (1kg)", 10)] "Balanced" ⟨90, 500, 200, 0⟩
      ["Rice (1kg)"] 100 (Or.inl rfl)⟩

/-- C3: the estimator never raises: the exception-level embedding always
returns `Except.ok`, with the value the pure estimator computes. -/
theorem estimate_never_raises (model : Option PriceModelE) (catalog : Catalog)
    (d : String) (nd : NutritionData) (items : List String) (b : ℚ) :
    predict_basket_price_run model catalog d nd items b =
      Except.ok (predict_basket_price (modelToOption model) catalog d nd items b) :=
  predict_run_eq model catalog d nd items b

/-- C4: with an empty selection the raw sum is 0, both clamp bounds are 0,
and the estimate collapses to 0 whatever the model predicts. -/
theorem empty_basket_eq_zero (model : Option PriceModel) (catalog : Catalog)
    (d : String) (nd : NutritionData) (b : ℚ) :
    predict_basket_price model catalog d nd [] b = 0 := by
  simp only [predict_basket_price, rawSum, List.map_nil, List.sum_nil, zero_mul]
  exact max_eq_right (min_le_right _ 0)

/-- C5: the concrete scenario: catalog Milk 15, Bread 8, Eggs 20, all three
selected (raw sum 43), model unavailable, proteins 200, fats 50, carbs
1500: the multiplier is 1.1 and the estimate is exactly 47.3. -/
theorem concrete_scenario_result :
    predict_basket_price none
      [("Milk (1L)", 15), ("Bread (loaf)", 8), ("Eggs (dozen)", 20)]
      "Balanced" ⟨50, 1500, 200, 150⟩
      ["Milk (1L)", "Bread (loaf)", "Eggs (dozen)"] 250 = 47.3 := by
  simp [predict_basket_price, predictedPrice, fallbackPrice,
    fallbackMultiplier, rawSum, priceOf, List.lookup]
  rw [min_def, max_def]
  norm_num

/-- C6: an item absent from the catalog is priced 0, contributes nothing to
the raw sum (hence to either clamp bound), and the estimator still returns
normally on a selection containing it. -/
theorem absent_item_contributes_zero (catalog : Catalog) (item : String)
    (h : catalog.lookup item = none) (pre post : List String)
    (model : Option PriceModelE) (d : String) (nd : NutritionData) (b : ℚ) :
    priceOf catalog item = 0 ∧
    rawSum catalog (pre ++ item :: post) = rawSum catalog (pre ++ post) ∧
    rawSum catalog (pre ++ item :: post) * 0.8 = rawSum catalog (pre ++ post) * 0.8 ∧
    rawSum catalog (pre ++ item :: post) * 1.5 = rawSum catalog (pre ++ post) * 1.5 ∧
    predict_basket_price_run model catalog d nd (pre ++ item :: post) b =
      Except.ok (predict_basket_price (modelToOption model) catalog d nd (pre ++ item :: post) b) := by
  have h0 : priceOf catalog item = 0 := by simp [priceOf, h]
  have hsum : rawSum catalog (pre ++ item :: post) = rawSum catalog (pre ++ post) := by
    simp [rawSum, h0]
  exact ⟨h0, hsum, by rw [hsum], by rw [hsum],
    predict_run_eq model catalog d nd (pre ++ item :: post) b⟩

/-- Witness for C6: Milk is absent from a Bread-only catalog. -/
theorem absent_item_contributes_zero_witness :
    ([("Bread (loaf)", (8 : ℚ))].lookup "Milk (1L)" = none) ∧
    priceOf [("Bread (loaf)", (8 : ℚ))] "Milk (1L)" = 0 :=
  ⟨by decide,
    (absent_item_contributes_zero [("Bread (loaf)", (8 : ℚ))] "Milk (1L)" (by decide)
      [] ["Bread (loaf)"] none "Balanced" ⟨0, 0, 0, 0⟩ 5).1⟩

/-- C7: the `Has_Protein` feature handed to the model is 1 exactly when some
selected item name contains "Chicken", "Eggs" or "Milk" as a contiguous
substring, and 0 exactly otherwise; the catalog plays no role in it. -/
theorem hasProtein_feature_spec (d : String) (nd : NutritionData)
    (items : List String) (b : ℚ) :
    ((buildFeatures d nd items b).hasProtein = 1 ↔
      ∃ item ∈ items, ("Chicken".data <:+: item.data ∨ "Eggs".data <:+: item.data ∨
        "Milk".data <:+: item.data)) ∧
    ((buildFeatures d nd items b).hasProtein = 0 ↔
      ¬ ∃ item ∈ items, ("Chicken".data <:+: item.data ∨ "Eggs".data <:+: item.data ∨
        "Milk".data <:+: item.data)) := by
  have key : (items.any fun item =>
      strContains "Chicken" item || strContains "Eggs" item || strContains "Milk" item) = true ↔
      ∃ item ∈ items, ("Chicken".data <:+: item.data ∨ "Eggs".data <:+: item.data ∨
        "Milk".data <:+: item.data) := by
    simp [List.any_eq_true, strContains, or_assoc]
  simp only [buildFeatures, hasProteinFlag]
  by_cases hA : (items.any fun item =>
      strContains "Chicken" item || strContains "Eggs" item || strContains "Milk" item) = true
  · rw [if_pos hA]
    have hex := key.mp hA
    constructor
    · simp [hex]
    · simp [hex]
  · rw [if_neg hA]
    have hnex := (not_iff_not.mpr key).mp hA
    constructor
    · simp [hnex]
    · simp [hnex]

/-- C8: model building is reproducible: the source seeds numpy with 42
before any draw, so the synthesised table and fitted model are functions of
the seed alone — two runs started from arbitrary ambient generator states
produce identical training data, identical models, and identical estimates
for identical inputs. -/
theorem model_build_reproducible (ops : RngOps)
    (splitFit : ℚ → ℕ → TrainingData → PriceModel) (s1 s2 : RngState) :
    create_sample_model ops splitFit s1 = create_sample_model ops splitFit s2 ∧
    ∀ (catalog : Catalog) (d : String) (nd : NutritionData) (items : List String) (b : ℚ),
      predict_basket_price (some (create_sample_model ops splitFit s1).2) catalog d nd items b =
      predict_basket_price (some (create_sample_model ops splitFit s2).2) catalog d nd items b := by
  have h : create_sample_model ops splitFit s1 = create_sample_model ops splitFit s2 := by
    unfold create_sample_model
    rfl
  exact ⟨h, fun _ _ _ _ _ => by rw [h]⟩

/-- C9: the four `predict_basket_price` definitions, one per source file,
compute the same function of model, catalog, diet, nutrition data,
selection and budget. -/
theorem predict_variants_agree :
    (∀ (model : Option PriceModel) (catalog : Catalog) (d : String) (nd : NutritionData)
        (items : List String) (b : ℚ),
      predict_basket_price model catalog d nd items b =
        predictBeldyConnect model catalog d nd items b) ∧
    (∀ (model : Option PriceModel) (catalog : Catalog) (d : String) (nd : NutritionData)
        (items : List String) (b : ℚ),
      predict_basket_price model catalog d nd items b =
        predictBeldyConnectDash model catalog d nd items b) ∧
    (∀ (model : Option PriceModel) (catalog : Catalog) (d : String) (nd : NutritionData)
        (items : List String) (b : ℚ),
      predict_basket_price model catalog d nd items b =
        predictBeldyConnectUnderscore model catalog d nd items b) :=
  ⟨fun _ _ _ _ _ _ => rfl, fun _ _ _ _ _ _ => rfl, fun _ _ _ _ _ _ => rfl⟩

/-- C10: on the fallback path the clamp is a no-op: the multiplier lies in
[1, 1.2] ⊆ [0.8, 1.5], so with non-negative catalog prices the estimate is
exactly the raw sum times the multiplier. -/
theorem fallback_clamp_noop (model : Option PriceModel) (catalog : Catalog)
    (d : String) (nd : NutritionData) (items : List String) (b : ℚ)
    (h : model = none ∨ ∃ f, model = some f ∧ f (buildFeatures d nd items b) = none)
    (hnn : ∀ pr ∈ catalog, 0 ≤ pr.2) :
    1 ≤ fallbackMultiplier nd ∧ fallbackMultiplier nd ≤ 1.2 ∧
    predict_basket_price model catalog d nd items b =
      rawSum catalog items * fallbackMultiplier nd := by
  have hr : 0 ≤ rawSum catalog items := rawSum_nonneg catalog hnn items
  have h1 := one_le_fallbackMultiplier nd
  have h2 := fallbackMultiplier_le nd
  refine ⟨h1, h2, ?_⟩
  simp only [predict_basket_price, predictedPrice_of_unavailable model catalog d nd items b h,
    fallbackPrice]
  rw [min_eq_left, max_eq_left]
  · exact mul_le_mul_of_nonneg_left ((by norm_num : (0.8 : ℚ) ≤ 1).trans h1) hr
  · exact mul_le_mul_of_nonneg_left (h2.trans (by norm_num)) hr

/-- Witness for C10 with the model absent. -/
theorem fallback_clamp_noop_witness :
    ((none : Option PriceModel) = none ∨
      ∃ f, (none : Option PriceModel) = some f ∧
        f (buildFeatures "Balanced" ⟨0, 2000, 200, 0⟩ ["Rice (1kg)"] 5) = none) ∧
    (∀ pr ∈ [("Rice (1kg)", (10 : ℚ))], 0 ≤ pr.2) ∧
    predict_basket_price none [("Rice (1kg)", 10)] "Balanced" ⟨0, 2000, 200, 0⟩ ["Rice (1kg)"] 5 =
      rawSum [("Rice (1kg)", 10)] ["Rice (1kg)"] * fallbackMultiplier ⟨0, 2000, 200, 0⟩ :=
  ⟨Or.inl rfl, by decide,
    (fallback_clamp_noop none [("Rice (1kg)", 10)] "Balanced" ⟨0, 2000, 200, 0⟩
      ["Rice (1kg)"] 5 (Or.inl rfl) (by decide)).2.2⟩

end BeldyCo
